import Mathlib

set_option maxHeartbeats 1000000
set_option linter.unusedVariables false
set_option linter.unnecessarySeqFocus false

/-
Shallow embedding of the NEON backend capability layer of armnn:
  src/armnn/backends/NeonLayerSupport.cpp
  src/armnn/backends/NeonWorkloads/NeonActivationFloat32Workload.cpp

The C++ compile-time toggle ARMCOMPUTENEON_ENABLED is embedded as an explicit
Boolean parameter `armComputeNeonEnabled` threaded through every predicate,
exactly as the spec's design note maps the conditional compilation to a shared
build-configuration flag.

The C++ `std::string* reasonIfUnsupported` output parameter is embedded in
state-passing style as an `Option String`: `none` is a null pointer, `some s`
a non-null pointer to a string currently holding `s`.  Every predicate returns
the verdict together with the final contents of that slot.

Validate entry points of the native kernel library (arm_compute) and of the
other Neon workload translation units are not part of the sources; each
predicate that forwards to one takes that validate function as an explicit
parameter with the source function's name.
-/

namespace armnn

/-- Element data types of a tensor (armnn/Types.hpp closed enumeration). -/
inductive DataType
  | Float16
  | Float32
  | QuantisedAsymm8
  | Signed32
deriving DecidableEq

/-- Static tensor descriptor: element data type and shape (armnn/Tensor.hpp).
The real-valued quantization scale and offset fields are never consulted by
this layer and are omitted. -/
structure TensorInfo where
  dataType : DataType
  shape : List Nat
deriving DecidableEq

/-- TensorInfo::GetDataType(). -/
def TensorInfo.GetDataType (info : TensorInfo) : DataType := info.dataType

/-- TensorInfo::GetShape(); element access GetShape()[i] is embedded as
List.getD i 0 (the source indexes dimensions 2 and 3 unconditionally). -/
def TensorInfo.GetShape (info : TensorInfo) : List Nat := info.shape

/-- NormalizationAlgorithmMethod (armnn/Types.hpp). -/
inductive NormalizationAlgorithmMethod
  | LocalBrightness
  | LocalContrast
deriving DecidableEq

/-- NormalizationAlgorithmChannel (armnn/Types.hpp). -/
inductive NormalizationAlgorithmChannel
  | Across
  | Within
deriving DecidableEq

/-- Activation function kinds of the armnn descriptor (armnn/Types.hpp). -/
inductive ActivationFunction
  | Sigmoid
  | TanH
  | Linear
  | ReLu
  | BoundedReLu
  | SoftReLu
  | LeakyReLu
  | Abs
  | Sqrt
  | Square
deriving DecidableEq

/-- Modelled from the spec: OperatorDescriptor for activation carries the
function kind (armnn/Descriptors.hpp is outside the sources).  The real-valued
parameters m_A and m_B are passed through unread and omitted. -/
structure ActivationDescriptor where
  m_Function : ActivationFunction
deriving DecidableEq

/-- Modelled from the spec: OperatorDescriptor for convolution — stride X/Y,
padding left/right/top/bottom, bias-enabled flag (armnn/Descriptors.hpp is
outside the sources). -/
structure Convolution2dDescriptor where
  m_PadLeft : Nat
  m_PadRight : Nat
  m_PadTop : Nat
  m_PadBottom : Nat
  m_StrideX : Nat
  m_StrideY : Nat
  m_BiasEnabled : Bool
deriving DecidableEq

/-- Modelled from the spec: depthwise convolution parameters, same fields as
plain convolution (armnn/Descriptors.hpp is outside the sources). -/
structure DepthwiseConvolution2dDescriptor where
  m_PadLeft : Nat
  m_PadRight : Nat
  m_PadTop : Nat
  m_PadBottom : Nat
  m_StrideX : Nat
  m_StrideY : Nat
  m_BiasEnabled : Bool
deriving DecidableEq

/-- Modelled from the spec: OperatorDescriptor for normalization — algorithm
method and window size (armnn/Descriptors.hpp is outside the sources).  The
real-valued alpha/beta/kappa parameters are never consulted and omitted. -/
structure NormalizationDescriptor where
  m_NormChannelType : NormalizationAlgorithmChannel
  m_NormMethodType : NormalizationAlgorithmMethod
  m_NormSize : Nat
deriving DecidableEq

/-- Modelled from the spec: fully-connected parameters (armnn/Descriptors.hpp
is outside the sources). -/
structure FullyConnectedDescriptor where
  m_BiasEnabled : Bool
  m_TransposeWeightMatrix : Bool
deriving DecidableEq

/-- Modelled from the spec: batch-normalization parameters; the single
real-valued epsilon field is never consulted by this layer. -/
structure BatchNormalizationDescriptor
deriving DecidableEq

/-- Modelled from the spec: softmax parameters; the single real-valued beta
field is never consulted by this layer. -/
structure SoftmaxDescriptor
deriving DecidableEq

/-- Modelled from the spec: permutation mapping parameter. -/
structure PermuteDescriptor where
  m_DimMappings : List Nat
deriving DecidableEq

/-- Modelled from the spec: pooling parameters; never consulted by this
layer's own logic (forwarded whole to the delegate). -/
structure Pooling2dDescriptor
deriving DecidableEq

/-- Modelled from the spec: merger origins parameter; never consulted. -/
structure OriginsDescriptor
deriving DecidableEq

/-- Modelled from the spec: splitter views parameter; never consulted. -/
structure ViewsDescriptor
deriving DecidableEq

/-- Modelled from the spec: fake-quantization parameters; never consulted. -/
structure FakeQuantizationDescriptor
deriving DecidableEq

/-- Modelled from the spec: LSTM cell parameters; never consulted. -/
structure LstmDescriptor
deriving DecidableEq

/-- arm_compute::ErrorCode (kernel-library status codes). -/
inductive ErrorCode
  | OK
  | RUNTIME_ERROR
deriving DecidableEq

/-- arm_compute::Status: an error code plus human-readable description. -/
structure Status where
  error_code : ErrorCode
  error_description : String
deriving DecidableEq

/-- Kernel-library activation function kinds
(arm_compute::ActivationLayerInfo::ActivationFunction). -/
inductive AclActivationFunction
  | LOGISTIC
  | TANH
  | LINEAR
  | RELU
  | LU_BOUNDED_RELU
  | SOFT_RELU
  | LEAKY_RELU
  | ABS
  | SQRT
  | SQUARE
deriving DecidableEq

/-- arm_compute::ActivationLayerInfo; the real-valued a/b parameters are
passed through unread and omitted. -/
structure ActivationLayerInfo where
  activation : AclActivationFunction
deriving DecidableEq

/-- arm_compute::TensorInfo as built from an armnn TensorInfo. -/
structure AclTensorInfo where
  dataType : DataType
  shape : List Nat
deriving DecidableEq

/-- Modelled from the spec: armcomputetensorutils::BuildArmComputeTensorInfo
(ArmComputeTensorUtils, outside the sources) — translation of the armnn tensor
descriptor into the kernel library's native descriptor, preserving data type
and shape. -/
def BuildArmComputeTensorInfo (info : TensorInfo) : AclTensorInfo :=
  ⟨info.dataType, info.shape⟩

/-- Modelled from the spec: the activation-function half of
ConvertActivationDescriptorToAclActivationLayerInfo (ArmComputeUtils.hpp,
outside the sources) — each armnn activation kind maps to the kernel
library's corresponding kind. -/
def ConvertActivationFunctionToAclActivationFunction :
    ActivationFunction → AclActivationFunction
  | ActivationFunction.Sigmoid => AclActivationFunction.LOGISTIC
  | ActivationFunction.TanH => AclActivationFunction.TANH
  | ActivationFunction.Linear => AclActivationFunction.LINEAR
  | ActivationFunction.ReLu => AclActivationFunction.RELU
  | ActivationFunction.BoundedReLu => AclActivationFunction.LU_BOUNDED_RELU
  | ActivationFunction.SoftReLu => AclActivationFunction.SOFT_RELU
  | ActivationFunction.LeakyReLu => AclActivationFunction.LEAKY_RELU
  | ActivationFunction.Abs => AclActivationFunction.ABS
  | ActivationFunction.Sqrt => AclActivationFunction.SQRT
  | ActivationFunction.Square => AclActivationFunction.SQUARE

/-- Modelled from the spec: ConvertActivationDescriptorToAclActivationLayerInfo
(ArmComputeUtils.hpp, outside the sources) — translation of the
OperatorDescriptor into the kernel library's native configuration structure. -/
def ConvertActivationDescriptorToAclActivationLayerInfo
    (descriptor : ActivationDescriptor) : ActivationLayerInfo :=
  ⟨ConvertActivationFunctionToAclActivationFunction descriptor.m_Function⟩

/-- Writing through the optional reason pointer:
`if (reasonIfUnsupported) { *reasonIfUnsupported = msg; }`. -/
def writeReason (reasonIfUnsupported : Option String) (msg : String) :
    Option String :=
  match reasonIfUnsupported with
  | none => none
  | some _ => some msg

/-- The fixed backend-not-available diagnostic (NeonLayerSupport.cpp line 100). -/
def backendNotAvailableDiagnostic : String :=
  "The armnn library has been built without NEON support"

/-- NeonLayerSupport.cpp lines 93-104 (IsNeonBackendSupported): with the NEON
acceleration path built in, accept; otherwise reject with the fixed
backend-not-available diagnostic. -/
def IsNeonBackendSupported (armComputeNeonEnabled : Bool)
    (reasonIfUnsupported : Option String) : Bool × Option String :=
  if armComputeNeonEnabled then
    (true, reasonIfUnsupported)
  else
    (false, writeReason reasonIfUnsupported backendNotAvailableDiagnostic)

/-- Modelled from the spec: the generic data-type dispatch helper
IsSupportedForDataTypeGeneric (LayerSupportCommon.hpp, outside the sources) —
one function per supported data-type category, invoked on the matching
declared type; unknown or unlisted data types are rejected by default. -/
def IsSupportedForDataTypeGeneric (reasonIfUnsupported : Option String)
    (dataType : DataType)
    (float16Func float32Func uint8Func : Option String → Bool × Option String) :
    Bool × Option String :=
  match dataType with
  | DataType.Float16 => float16Func reasonIfUnsupported
  | DataType.Float32 => float32Func reasonIfUnsupported
  | DataType.QuantisedAsymm8 => uint8Func reasonIfUnsupported
  | _ => (false, reasonIfUnsupported)

/-- Modelled from the spec: the always-true sentinel capability function
(LayerSupportCommon.hpp, outside the sources). -/
def TrueFunc (reasonIfUnsupported : Option String) : Bool × Option String :=
  (true, reasonIfUnsupported)

/-- Modelled from the spec: the always-false sentinel for float16; the spec's
open question records that several categorical rejections leave the
diagnostic unpopulated. -/
def FalseFuncF16 (reasonIfUnsupported : Option String) : Bool × Option String :=
  (false, reasonIfUnsupported)

/-- Modelled from the spec: the always-false sentinel for 8-bit quantized. -/
def FalseFuncU8 (reasonIfUnsupported : Option String) : Bool × Option String :=
  (false, reasonIfUnsupported)

/-- NeonLayerSupport.cpp lines 106-120 (IsSupportedForDataTypeNeon): the
availability gate short-circuits the generic data-type dispatch; the float
function is supplied for both the float16 and float32 slots. -/
def IsSupportedForDataTypeNeon (armComputeNeonEnabled : Bool)
    (reasonIfUnsupported : Option String) (dataType : DataType)
    (floatFunc uint8Func : Option String → Bool × Option String) :
    Bool × Option String :=
  match IsNeonBackendSupported armComputeNeonEnabled reasonIfUnsupported with
  | (true, r) => IsSupportedForDataTypeGeneric r dataType floatFunc floatFunc uint8Func
  | (false, r) => (false, r)

/-- NeonLayerSupport.cpp lines 123-133 (IsWorkloadSupported): translate a
kernel-library status into the verdict — OK maps to accept, anything else to
reject with the kernel's error description written through the reason slot. -/
def IsWorkloadSupported (aclStatus : Status)
    (reasonIfUnsupported : Option String) : Bool × Option String :=
  if aclStatus.error_code = ErrorCode.OK then
    (true, reasonIfUnsupported)
  else
    (false, writeReason reasonIfUnsupported aclStatus.error_description)

/-- NeonLayerSupport.cpp lines 135-140 (FORWARD_WORKLOAD_VALIDATE_FUNC): with
the acceleration library built in, forward to IsWorkloadSupported on the
validate call's status (the thunk mirrors that the call only exists in the
enabled build); without it, return the availability gate's verdict. -/
def forwardWorkloadValidate (armComputeNeonEnabled : Bool)
    (aclStatus : Unit → Status) (reasonIfUnsupported : Option String) :
    Bool × Option String :=
  if armComputeNeonEnabled then
    IsWorkloadSupported (aclStatus ()) reasonIfUnsupported
  else
    IsNeonBackendSupported armComputeNeonEnabled reasonIfUnsupported

/-- NeonLayerSupport.cpp lines 37-69 (IsNeonDirectConvolutionPreferred): the
direct-convolution preference heuristic — float32 weights, strides 1|2|3,
1x1 kernel (weight shape dimensions 2 and 3), no padding, bias enabled. -/
def IsNeonDirectConvolutionPreferred (weightInfo : TensorInfo)
    (desc : Convolution2dDescriptor) : Bool :=
  let dataTypeSupported : Bool :=
    decide (weightInfo.GetDataType = DataType.Float32)
  let strideSupported : Bool :=
    (decide (desc.m_StrideX = 1) || decide (desc.m_StrideX = 2) ||
     decide (desc.m_StrideX = 3)) &&
    (decide (desc.m_StrideY = 1) || decide (desc.m_StrideY = 2) ||
     decide (desc.m_StrideY = 3))
  let paddingLargerThan := fun (conv2ddesc : Convolution2dDescriptor)
      (value : Nat) =>
    decide (conv2ddesc.m_PadLeft > value) ||
    decide (conv2ddesc.m_PadRight > value) ||
    decide (conv2ddesc.m_PadTop > value) ||
    decide (conv2ddesc.m_PadBottom > value)
  let sizeAndPaddingSupported : Bool :=
    decide (weightInfo.GetShape.getD 2 0 = 1) &&
    decide (weightInfo.GetShape.getD 3 0 = 1) &&
    !(paddingLargerThan desc 0)
  dataTypeSupported && strideSupported && sizeAndPaddingSupported &&
    desc.m_BiasEnabled

/-- NeonLayerSupport.cpp lines 71-91 (IsNeonNormalizationDescParamsSupported):
only the LocalBrightness method is supported and the window size must be odd;
each rejection writes its own diagnostic. -/
def IsNeonNormalizationDescParamsSupported
    (reasonIfUnsupported : Option String)
    (parameters : NormalizationDescriptor) : Bool × Option String :=
  if parameters.m_NormMethodType ≠ NormalizationAlgorithmMethod.LocalBrightness then
    (false, writeReason reasonIfUnsupported
      "Unsupported normalisation method type, only LocalBrightness is supported")
  else if parameters.m_NormSize % 2 = 0 then
    (false, writeReason reasonIfUnsupported
      "Normalization size must be an odd number.")
  else
    (true, reasonIfUnsupported)

/-- NeonActivationFloat32Workload.cpp lines 13-33
(NeonActivationWorkloadValidate): reject QAsymm8 input combined with the
LOGISTIC kernel activation before the native validate entry point is
consulted; otherwise adopt the kernel library's validate status.  The native
NEActivationLayer::validate entry point is outside the sources and is taken
as the parameter aclActivationValidate. -/
def NeonActivationWorkloadValidate
    (aclActivationValidate : AclTensorInfo → AclTensorInfo → ActivationLayerInfo → Status)
    (input output : TensorInfo) (descriptor : ActivationDescriptor) : Status :=
  let aclInput := BuildArmComputeTensorInfo input
  let aclOutput := BuildArmComputeTensorInfo output
  let activationLayerInfo :=
    ConvertActivationDescriptorToAclActivationLayerInfo descriptor
  if input.GetDataType = DataType.QuantisedAsymm8 ∧
      activationLayerInfo.activation = AclActivationFunction.LOGISTIC then
    ⟨ErrorCode.RUNTIME_ERROR,
     "Neon: Logistic Activations unsupported with QAsymm8 data type."⟩
  else
    aclActivationValidate aclInput aclOutput activationLayerInfo

/-- NeonLayerSupport.cpp lines 142-153 (IsActivationSupportedNeon). -/
def IsActivationSupportedNeon (armComputeNeonEnabled : Bool)
    (aclActivationValidate : AclTensorInfo → AclTensorInfo → ActivationLayerInfo → Status)
    (input output : TensorInfo) (descriptor : ActivationDescriptor)
    (reasonIfUnsupported : Option String) : Bool × Option String :=
  forwardWorkloadValidate armComputeNeonEnabled
    (fun _ => NeonActivationWorkloadValidate aclActivationValidate input output descriptor)
    reasonIfUnsupported

/-- NeonLayerSupport.cpp lines 155-165 (IsAdditionSupportedNeon). -/
def IsAdditionSupportedNeon (armComputeNeonEnabled : Bool)
    (NeonAdditionWorkloadValidate : TensorInfo → TensorInfo → TensorInfo → Status)
    (input0 input1 output : TensorInfo)
    (reasonIfUnsupported : Option String) : Bool × Option String :=
  forwardWorkloadValidate armComputeNeonEnabled
    (fun _ => NeonAdditionWorkloadValidate input0 input1 output)
    reasonIfUnsupported

/-- NeonLayerSupport.cpp lines 167-185 (IsBatchNormalizationSupportedNeon). -/
def IsBatchNormalizationSupportedNeon (armComputeNeonEnabled : Bool)
    (NeonBatchNormalizationValidate :
      TensorInfo → TensorInfo → TensorInfo → TensorInfo → TensorInfo →
      TensorInfo → BatchNormalizationDescriptor → Status)
    (input output mean targetVar beta gamma : TensorInfo)
    (descriptor : BatchNormalizationDescriptor)
    (reasonIfUnsupported : Option String) : Bool × Option String :=
  forwardWorkloadValidate armComputeNeonEnabled
    (fun _ => NeonBatchNormalizationValidate input output mean targetVar beta
      gamma descriptor)
    reasonIfUnsupported

/-- NeonLayerSupport.cpp lines 187-194 (IsConstantSupportedNeon). -/
def IsConstantSupportedNeon (armComputeNeonEnabled : Bool)
    (output : TensorInfo)
    (reasonIfUnsupported : Option String) : Bool × Option String :=
  IsSupportedForDataTypeNeon armComputeNeonEnabled reasonIfUnsupported
    output.GetDataType TrueFunc TrueFunc

/-- NeonLayerSupport.cpp lines 196-210 (IsConvolution2dSupportedNeon). -/
def IsConvolution2dSupportedNeon (armComputeNeonEnabled : Bool)
    (NeonConvolution2dWorkloadValidate :
      TensorInfo → TensorInfo → Convolution2dDescriptor → TensorInfo →
      TensorInfo → Status)
    (input output : TensorInfo) (descriptor : Convolution2dDescriptor)
    (weights biases : TensorInfo)
    (reasonIfUnsupported : Option String) : Bool × Option String :=
  forwardWorkloadValidate armComputeNeonEnabled
    (fun _ => NeonConvolution2dWorkloadValidate input output descriptor weights biases)
    reasonIfUnsupported

/-- NeonLayerSupport.cpp lines 212-226 (IsDepthwiseConvolutionSupportedNeon). -/
def IsDepthwiseConvolutionSupportedNeon (armComputeNeonEnabled : Bool)
    (NeonDepthwiseConvolutionWorkloadValidate :
      TensorInfo → TensorInfo → DepthwiseConvolution2dDescriptor → TensorInfo →
      TensorInfo → Status)
    (input output : TensorInfo) (descriptor : DepthwiseConvolution2dDescriptor)
    (weights biases : TensorInfo)
    (reasonIfUnsupported : Option String) : Bool × Option String :=
  forwardWorkloadValidate armComputeNeonEnabled
    (fun _ => NeonDepthwiseConvolutionWorkloadValidate input output descriptor
      weights biases)
    reasonIfUnsupported

/-- NeonLayerSupport.cpp lines 228-247 (IsFullyConnectedSupportedNeon): 8-bit
quantized input is rejected before the delegate macro runs, with no
diagnostic written. -/
def IsFullyConnectedSupportedNeon (armComputeNeonEnabled : Bool)
    (NeonFullyConnectedWorkloadValidate :
      TensorInfo → TensorInfo → TensorInfo → TensorInfo →
      FullyConnectedDescriptor → Status)
    (input output weights biases : TensorInfo)
    (descriptor : FullyConnectedDescriptor)
    (reasonIfUnsupported : Option String) : Bool × Option String :=
  if input.GetDataType = DataType.QuantisedAsymm8 then
    (false, reasonIfUnsupported)
  else
    forwardWorkloadValidate armComputeNeonEnabled
      (fun _ => NeonFullyConnectedWorkloadValidate input output weights biases
        descriptor)
      reasonIfUnsupported

/-- NeonLayerSupport.cpp lines 249-256 (IsInputSupportedNeon). -/
def IsInputSupportedNeon (armComputeNeonEnabled : Bool)
    (input : TensorInfo)
    (reasonIfUnsupported : Option String) : Bool × Option String :=
  IsSupportedForDataTypeNeon armComputeNeonEnabled reasonIfUnsupported
    input.GetDataType TrueFunc TrueFunc

/-- NeonLayerSupport.cpp lines 258-263 (IsL2NormalizationSupportedNeon). -/
def IsL2NormalizationSupportedNeon (armComputeNeonEnabled : Bool)
    (NeonL2NormalizationWorkloadValidate : TensorInfo → TensorInfo → Status)
    (input output : TensorInfo)
    (reasonIfUnsupported : Option String) : Bool × Option String :=
  forwardWorkloadValidate armComputeNeonEnabled
    (fun _ => NeonL2NormalizationWorkloadValidate input output)
    reasonIfUnsupported

/-- NeonLayerSupport.cpp lines 265-274 (IsMergerSupportedNeon): dispatches on
the first input's data type (the source dereferences element 0
unconditionally; the embedding reads it with a default). -/
def IsMergerSupportedNeon (armComputeNeonEnabled : Bool)
    (inputs : List TensorInfo) (descriptor : OriginsDescriptor)
    (reasonIfUnsupported : Option String) : Bool × Option String :=
  IsSupportedForDataTypeNeon armComputeNeonEnabled reasonIfUnsupported
    (inputs.getD 0 ⟨DataType.Float32, []⟩).GetDataType TrueFunc TrueFunc

/-- NeonLayerSupport.cpp lines 276-286 (IsMultiplicationSupportedNeon). -/
def IsMultiplicationSupportedNeon (armComputeNeonEnabled : Bool)
    (NeonMultiplicationWorkloadValidate :
      TensorInfo → TensorInfo → TensorInfo → Status)
    (input0 input1 output : TensorInfo)
    (reasonIfUnsupported : Option String) : Bool × Option String :=
  forwardWorkloadValidate armComputeNeonEnabled
    (fun _ => NeonMultiplicationWorkloadValidate input0 input1 output)
    reasonIfUnsupported

/-- NeonLayerSupport.cpp lines 288-294 (IsNormalizationSupportedNeon). -/
def IsNormalizationSupportedNeon (armComputeNeonEnabled : Bool)
    (NeonNormalizationWorkloadValidate :
      TensorInfo → TensorInfo → NormalizationDescriptor → Status)
    (input output : TensorInfo) (descriptor : NormalizationDescriptor)
    (reasonIfUnsupported : Option String) : Bool × Option String :=
  forwardWorkloadValidate armComputeNeonEnabled
    (fun _ => NeonNormalizationWorkloadValidate input output descriptor)
    reasonIfUnsupported

/-- NeonLayerSupport.cpp lines 296-303 (IsOutputSupportedNeon). -/
def IsOutputSupportedNeon (armComputeNeonEnabled : Bool)
    (output : TensorInfo)
    (reasonIfUnsupported : Option String) : Bool × Option String :=
  IsSupportedForDataTypeNeon armComputeNeonEnabled reasonIfUnsupported
    output.GetDataType TrueFunc TrueFunc

/-- NeonLayerSupport.cpp lines 305-311 (IsPermuteSupportedNeon). -/
def IsPermuteSupportedNeon (armComputeNeonEnabled : Bool)
    (NeonPermuteWorkloadValidate :
      TensorInfo → TensorInfo → PermuteDescriptor → Status)
    (input output : TensorInfo) (descriptor : PermuteDescriptor)
    (reasonIfUnsupported : Option String) : Bool × Option String :=
  forwardWorkloadValidate armComputeNeonEnabled
    (fun _ => NeonPermuteWorkloadValidate input output descriptor)
    reasonIfUnsupported

/-- NeonLayerSupport.cpp lines 313-319 (IsPooling2dSupportedNeon). -/
def IsPooling2dSupportedNeon (armComputeNeonEnabled : Bool)
    (NeonPooling2dWorkloadValidate :
      TensorInfo → TensorInfo → Pooling2dDescriptor → Status)
    (input output : TensorInfo) (descriptor : Pooling2dDescriptor)
    (reasonIfUnsupported : Option String) : Bool × Option String :=
  forwardWorkloadValidate armComputeNeonEnabled
    (fun _ => NeonPooling2dWorkloadValidate input output descriptor)
    reasonIfUnsupported

/-- NeonLayerSupport.cpp lines 321-326 (IsResizeBilinearSupportedNeon):
categorical rejection, reason left untouched. -/
def IsResizeBilinearSupportedNeon (input : TensorInfo)
    (reasonIfUnsupported : Option String) : Bool × Option String :=
  (false, reasonIfUnsupported)

/-- NeonLayerSupport.cpp lines 328-334 (IsSoftmaxSupportedNeon). -/
def IsSoftmaxSupportedNeon (armComputeNeonEnabled : Bool)
    (NeonSoftmaxWorkloadValidate :
      TensorInfo → TensorInfo → SoftmaxDescriptor → Status)
    (input output : TensorInfo) (descriptor : SoftmaxDescriptor)
    (reasonIfUnsupported : Option String) : Bool × Option String :=
  forwardWorkloadValidate armComputeNeonEnabled
    (fun _ => NeonSoftmaxWorkloadValidate input output descriptor)
    reasonIfUnsupported

/-- NeonLayerSupport.cpp lines 336-345 (IsSplitterSupportedNeon). -/
def IsSplitterSupportedNeon (armComputeNeonEnabled : Bool)
    (input : TensorInfo) (descriptor : ViewsDescriptor)
    (reasonIfUnsupported : Option String) : Bool × Option String :=
  IsSupportedForDataTypeNeon armComputeNeonEnabled reasonIfUnsupported
    input.GetDataType TrueFunc TrueFunc

/-- NeonLayerSupport.cpp lines 347-354 (IsFakeQuantizationSupportedNeon):
categorical rejection, reason left untouched. -/
def IsFakeQuantizationSupportedNeon (input : TensorInfo)
    (descriptor : FakeQuantizationDescriptor)
    (reasonIfUnsupported : Option String) : Bool × Option String :=
  (false, reasonIfUnsupported)

/-- NeonLayerSupport.cpp lines 356-363 (IsReshapeSupportedNeon). -/
def IsReshapeSupportedNeon (armComputeNeonEnabled : Bool)
    (input : TensorInfo)
    (reasonIfUnsupported : Option String) : Bool × Option String :=
  IsSupportedForDataTypeNeon armComputeNeonEnabled reasonIfUnsupported
    input.GetDataType TrueFunc TrueFunc

/-- NeonLayerSupport.cpp lines 365-376 (IsFloorSupportedNeon): float16 and
8-bit quantized are denied via the false sentinels, float32 accepted via the
true sentinel. -/
def IsFloorSupportedNeon (armComputeNeonEnabled : Bool)
    (input output : TensorInfo)
    (reasonIfUnsupported : Option String) : Bool × Option String :=
  match IsNeonBackendSupported armComputeNeonEnabled reasonIfUnsupported with
  | (true, r) =>
    IsSupportedForDataTypeGeneric r input.GetDataType FalseFuncF16 TrueFunc FalseFuncU8
  | (false, r) => (false, r)

/-- NeonLayerSupport.cpp lines 378-418 (IsLstmSupportedNeon): categorical
rejection of the recurrent cell, every argument ignored, reason untouched. -/
def IsLstmSupportedNeon (input outputStateIn cellStateIn scratchBuffer
    outputStateOut cellStateOut output : TensorInfo)
    (descriptor : LstmDescriptor)
    (inputToForgetWeights inputToCellWeights inputToOutputWeights
      recurrentToForgetWeights recurrentToCellWeights recurrentToOutputWeights
      forgetGateBias cellBias outputGateBias : TensorInfo)
    (inputToInputWeights recurrentToInputWeights cellToInputWeights
      inputGateBias projectionWeights projectionBias cellToForgetWeights
      cellToOutputWeights : Option TensorInfo)
    (reasonIfUnsupported : Option String) : Bool × Option String :=
  (false, reasonIfUnsupported)

/-- NeonLayerSupport.cpp lines 420-427 (IsConvertFp16ToFp32SupportedNeon):
unconditional acceptance, with no availability gate. -/
def IsConvertFp16ToFp32SupportedNeon (input output : TensorInfo)
    (reasonIfUnsupported : Option String) : Bool × Option String :=
  (true, reasonIfUnsupported)

/-- NeonLayerSupport.cpp lines 429-436 (IsConvertFp32ToFp16SupportedNeon):
unconditional acceptance, with no availability gate. -/
def IsConvertFp32ToFp16SupportedNeon (input output : TensorInfo)
    (reasonIfUnsupported : Option String) : Bool × Option String :=
  (true, reasonIfUnsupported)

/-- A live tensor storage handle bound into a workload; carries the tensor's
static descriptor (INeonTensorHandle, outside the sources). -/
structure INeonTensorHandle where
  info : TensorInfo
deriving DecidableEq

/-- The activation queue descriptor handed to the workload constructor:
input/output handle lists plus the operator parameters. -/
structure ActivationQueueDescriptor where
  m_Inputs : List INeonTensorHandle
  m_Outputs : List INeonTensorHandle
  m_Parameters : ActivationDescriptor
deriving DecidableEq

/-- The constructed activation workload: the bound handles and the configured
kernel activation info. -/
structure NeonActivationFloat32Workload where
  inputHandle : INeonTensorHandle
  outputHandle : INeonTensorHandle
  activationLayerInfo : ActivationLayerInfo
deriving DecidableEq

/-- NeonActivationFloat32Workload.cpp lines 35-48 (the constructor), embedded
as a fallible construction: ValidateInputsOutputs checks the exact 1/1 arity
(fatal on mismatch), the descriptor is translated, the handles are bound, and
the kernel configure call runs.  Modelled from the spec for the configure
step (NEActivationLayer::configure is outside the sources): the kernel's
configure performs its own internal validation, which is the kernel's
validate entry point applied to the same configuration; its failure is the
internal-consistency-fault path. -/
def NeonActivationFloat32Workload.construct
    (aclActivationValidate : AclTensorInfo → AclTensorInfo → ActivationLayerInfo → Status)
    (descriptor : ActivationQueueDescriptor) :
    Except String NeonActivationFloat32Workload :=
  if descriptor.m_Inputs.length = 1 ∧ descriptor.m_Outputs.length = 1 then
    let activationLayerInfo :=
      ConvertActivationDescriptorToAclActivationLayerInfo descriptor.m_Parameters
    let input := descriptor.m_Inputs.getD 0 ⟨⟨DataType.Float32, []⟩⟩
    let output := descriptor.m_Outputs.getD 0 ⟨⟨DataType.Float32, []⟩⟩
    let configureStatus :=
      aclActivationValidate (BuildArmComputeTensorInfo input.info)
        (BuildArmComputeTensorInfo output.info) activationLayerInfo
    if configureStatus.error_code = ErrorCode.OK then
      Except.ok ⟨input, output, activationLayerInfo⟩
    else
      Except.error configureStatus.error_description
  else
    Except.error "NeonActivationFloat32Workload"

/-! Theorems. -/

/-- On success the status translation leaves the reason slot untouched; a null
slot stays null on every path. -/
theorem IsWorkloadSupported_frame (st : Status) (r : Option String) :
    ((IsWorkloadSupported st r).1 = true → (IsWorkloadSupported st r).2 = r) ∧
    (IsWorkloadSupported st none).2 = none := by
  by_cases h : st.error_code = ErrorCode.OK <;>
    simp [IsWorkloadSupported, writeReason, h]

/-- The FORWARD_WORKLOAD_VALIDATE_FUNC pattern leaves the reason slot
untouched on acceptance and tolerates a null slot. -/
theorem forwardWorkloadValidate_frame (ne : Bool) (f : Unit → Status) :
    (∀ r, (forwardWorkloadValidate ne f r).1 = true →
      (forwardWorkloadValidate ne f r).2 = r) ∧
    (forwardWorkloadValidate ne f none).2 = none := by
  cases ne
  · simp [forwardWorkloadValidate, IsNeonBackendSupported, writeReason]
  · constructor
    · intro r h
      exact (IsWorkloadSupported_frame (f ()) r).1 h
    · exact (IsWorkloadSupported_frame (f ()) none).2

/-- The data-type dispatch pattern with true sentinels leaves the reason slot
untouched on acceptance and tolerates a null slot. -/
theorem IsSupportedForDataTypeNeon_frame (ne : Bool) (dt : DataType) :
    (∀ r, (IsSupportedForDataTypeNeon ne r dt TrueFunc TrueFunc).1 = true →
      (IsSupportedForDataTypeNeon ne r dt TrueFunc TrueFunc).2 = r) ∧
    (IsSupportedForDataTypeNeon ne none dt TrueFunc TrueFunc).2 = none := by
  cases ne <;> cases dt <;>
    simp [IsSupportedForDataTypeNeon, IsNeonBackendSupported,
      IsSupportedForDataTypeGeneric, TrueFunc, writeReason]

/-- Claim C2: the resize-bilinear, fake-quantization and LSTM predicates
reject every input unconditionally (none of them even consults the
availability flag), leaving the reason slot untouched. -/
theorem C2_categorical_rejections :
    (∀ (input : TensorInfo) (r : Option String),
      IsResizeBilinearSupportedNeon input r = (false, r)) ∧
    (∀ (input : TensorInfo) (d : FakeQuantizationDescriptor) (r : Option String),
      IsFakeQuantizationSupportedNeon input d r = (false, r)) ∧
    (∀ (t1 t2 t3 t4 t5 t6 t7 : TensorInfo) (d : LstmDescriptor)
      (w1 w2 w3 w4 w5 w6 w7 w8 w9 : TensorInfo)
      (o1 o2 o3 o4 o5 o6 o7 o8 : Option TensorInfo) (r : Option String),
      IsLstmSupportedNeon t1 t2 t3 t4 t5 t6 t7 d w1 w2 w3 w4 w5 w6 w7 w8 w9
        o1 o2 o3 o4 o5 o6 o7 o8 r = (false, r)) :=
  ⟨fun _ _ => rfl, fun _ _ _ => rfl,
   fun _ _ _ _ _ _ _ _ _ _ _ _ _ _ _ _ _ _ _ _ _ _ _ _ _ _ => rfl⟩

/-- Claim C4: the normalization parameter predicate accepts exactly for the
LocalBrightness method with an odd window size, and an even window size under
LocalBrightness rejects with the odd-number diagnostic. -/
theorem C4_normalization_params :
    (∀ (r : Option String) (p : NormalizationDescriptor),
      (IsNeonNormalizationDescParamsSupported r p).1 = true ↔
        (p.m_NormMethodType = NormalizationAlgorithmMethod.LocalBrightness ∧
         p.m_NormSize % 2 = 1)) ∧
    (∀ (s : String) (p : NormalizationDescriptor),
      p.m_NormMethodType = NormalizationAlgorithmMethod.LocalBrightness →
      p.m_NormSize % 2 = 0 →
      IsNeonNormalizationDescParamsSupported (some s) p =
        (false, some "Normalization size must be an odd number.")) := by
  constructor
  · intro r p
    by_cases hm : p.m_NormMethodType = NormalizationAlgorithmMethod.LocalBrightness
    · by_cases hs : p.m_NormSize % 2 = 0 <;>
        simp [IsNeonNormalizationDescParamsSupported, hm, hs] <;> omega
    · simp [IsNeonNormalizationDescParamsSupported, hm]
  · intro s p hm hs
    simp [IsNeonNormalizationDescParamsSupported, hm, hs, writeReason]

/-- Claim C4 witness: window size 4 with LocalBrightness rejects with the
odd-number diagnostic. -/
theorem C4_normalization_params_witness :
    IsNeonNormalizationDescParamsSupported (some "")
      ⟨NormalizationAlgorithmChannel.Across,
       NormalizationAlgorithmMethod.LocalBrightness, 4⟩ =
      (false, some "Normalization size must be an odd number.") :=
  C4_normalization_params.2 ""
    ⟨NormalizationAlgorithmChannel.Across,
     NormalizationAlgorithmMethod.LocalBrightness, 4⟩ rfl rfl

/-- Claim C5: the direct-convolution preference heuristic holds exactly for
float32 weights, strides in one|two|three on both axes, 1x1 kernel spatial
size, all paddings zero and bias enabled; at the reference configuration it
returns true, and flipping any single condition returns false. -/
theorem C5_direct_convolution_preference :
    (∀ (w : TensorInfo) (d : Convolution2dDescriptor),
      IsNeonDirectConvolutionPreferred w d = true ↔
        (w.dataType = DataType.Float32 ∧
         (d.m_StrideX = 1 ∨ d.m_StrideX = 2 ∨ d.m_StrideX = 3) ∧
         (d.m_StrideY = 1 ∨ d.m_StrideY = 2 ∨ d.m_StrideY = 3) ∧
         w.shape.getD 2 0 = 1 ∧ w.shape.getD 3 0 = 1 ∧
         d.m_PadLeft = 0 ∧ d.m_PadRight = 0 ∧ d.m_PadTop = 0 ∧
         d.m_PadBottom = 0 ∧ d.m_BiasEnabled = true)) ∧
    IsNeonDirectConvolutionPreferred ⟨DataType.Float32, [8, 8, 1, 1]⟩
      ⟨0, 0, 0, 0, 1, 1, true⟩ = true ∧
    IsNeonDirectConvolutionPreferred ⟨DataType.Float16, [8, 8, 1, 1]⟩
      ⟨0, 0, 0, 0, 1, 1, true⟩ = false ∧
    IsNeonDirectConvolutionPreferred ⟨DataType.Float32, [8, 8, 1, 1]⟩
      ⟨0, 0, 0, 0, 4, 1, true⟩ = false ∧
    IsNeonDirectConvolutionPreferred ⟨DataType.Float32, [8, 8, 2, 1]⟩
      ⟨0, 0, 0, 0, 1, 1, true⟩ = false ∧
    IsNeonDirectConvolutionPreferred ⟨DataType.Float32, [8, 8, 1, 1]⟩
      ⟨1, 0, 0, 0, 1, 1, true⟩ = false ∧
    IsNeonDirectConvolutionPreferred ⟨DataType.Float32, [8, 8, 1, 1]⟩
      ⟨0, 0, 0, 0, 1, 1, false⟩ = false := by
  refine ⟨?_, by decide, by decide, by decide, by decide, by decide, by decide⟩
  intro w d
  simp only [IsNeonDirectConvolutionPreferred, TensorInfo.GetDataType,
    TensorInfo.GetShape, Bool.and_eq_true, Bool.or_eq_true, Bool.not_eq_true',
    Bool.or_eq_false_iff, decide_eq_true_eq, decide_eq_false_iff_not, Nat.not_lt,
    Nat.le_zero]
  tauto

/-- Claim C7: the status translation maps error code OK to accept (reason
untouched) and every other status to reject with the kernel library's error
description written through verbatim. -/
theorem C7_status_translation :
    ∀ (st : Status) (r : Option String),
      ((IsWorkloadSupported st r).1 = true ↔ st.error_code = ErrorCode.OK) ∧
      ((IsWorkloadSupported st r).1 = true → (IsWorkloadSupported st r).2 = r) ∧
      (st.error_code ≠ ErrorCode.OK → ∀ s : String,
        (IsWorkloadSupported st (some s)).2 = some st.error_description) := by
  intro st r
  by_cases h : st.error_code = ErrorCode.OK <;>
    simp [IsWorkloadSupported, writeReason, h]

/-- Claim C7 witness: a RUNTIME_ERROR status rejects and passes the kernel
description through. -/
theorem C7_status_translation_witness :
    (IsWorkloadSupported ⟨ErrorCode.RUNTIME_ERROR, "kernel says no"⟩
      (some "old")).2 = some "kernel says no" :=
  (C7_status_translation ⟨ErrorCode.RUNTIME_ERROR, "kernel says no"⟩
    (some "old")).2.2 (by decide) "old"

/-- Claim C9: with the backend available, the floor predicate rejects float16
and 8-bit quantized inputs and accepts float32 inputs, for every shape. -/
theorem C9_floor_data_types :
    ∀ (s : List Nat) (output : TensorInfo) (r : Option String),
      (IsFloorSupportedNeon true ⟨DataType.Float16, s⟩ output r).1 = false ∧
      (IsFloorSupportedNeon true ⟨DataType.QuantisedAsymm8, s⟩ output r).1 = false ∧
      (IsFloorSupportedNeon true ⟨DataType.Float32, s⟩ output r).1 = true :=
  fun _ _ _ => ⟨rfl, rfl, rfl⟩

/-- Claim C3: the fully-connected predicate rejects every 8-bit quantized
input unconditionally, independently of the delegate, the availability flag
and the reason slot; for float32 input with the backend available its result
is exactly the delegate's translated verdict. -/
theorem C3_fully_connected :
    (∀ (ne : Bool)
       (v : TensorInfo → TensorInfo → TensorInfo → TensorInfo →
         FullyConnectedDescriptor → Status)
       (input output weights biases : TensorInfo)
       (d : FullyConnectedDescriptor) (r : Option String),
      input.dataType = DataType.QuantisedAsymm8 →
      IsFullyConnectedSupportedNeon ne v input output weights biases d r =
        (false, r)) ∧
    (∀ (v : TensorInfo → TensorInfo → TensorInfo → TensorInfo →
         FullyConnectedDescriptor → Status)
       (input output weights biases : TensorInfo)
       (d : FullyConnectedDescriptor) (r : Option String),
      input.dataType = DataType.Float32 →
      IsFullyConnectedSupportedNeon true v input output weights biases d r =
        IsWorkloadSupported (v input output weights biases d) r) := by
  constructor
  · intro ne v input output weights biases d r h
    simp [IsFullyConnectedSupportedNeon, TensorInfo.GetDataType, h]
  · intro v input output weights biases d r h
    simp [IsFullyConnectedSupportedNeon, TensorInfo.GetDataType, h,
      forwardWorkloadValidate]

/-- Claim C3 witness: an 8-bit quantized input is rejected with the reason
slot untouched even under a delegate that would accept, and for a float32
input with an accepting delegate the verdict is the delegate's accept. -/
theorem C3_fully_connected_witness :
    IsFullyConnectedSupportedNeon true (fun _ _ _ _ _ => ⟨ErrorCode.OK, ""⟩)
      ⟨DataType.QuantisedAsymm8, [1]⟩ ⟨DataType.QuantisedAsymm8, [1]⟩
      ⟨DataType.QuantisedAsymm8, [1]⟩ ⟨DataType.QuantisedAsymm8, [1]⟩
      ⟨false, false⟩ (some "untouched") = (false, some "untouched") :=
  C3_fully_connected.1 true (fun _ _ _ _ _ => ⟨ErrorCode.OK, ""⟩)
    ⟨DataType.QuantisedAsymm8, [1]⟩ ⟨DataType.QuantisedAsymm8, [1]⟩
    ⟨DataType.QuantisedAsymm8, [1]⟩ ⟨DataType.QuantisedAsymm8, [1]⟩
    ⟨false, false⟩ (some "untouched") rfl

/-- Claim C10: a QAsymm8 input whose descriptor converts to the LOGISTIC
kernel activation makes the activation validate return the RUNTIME_ERROR
status with the fixed message, for every native validate entry point (so the
native call is never consulted), and the activation oracle rejects. -/
theorem C10_logistic_qasymm8 :
    ∀ (aclActivationValidate :
        AclTensorInfo → AclTensorInfo → ActivationLayerInfo → Status)
      (input output : TensorInfo) (descriptor : ActivationDescriptor),
      input.dataType = DataType.QuantisedAsymm8 →
      (ConvertActivationDescriptorToAclActivationLayerInfo descriptor).activation =
        AclActivationFunction.LOGISTIC →
      NeonActivationWorkloadValidate aclActivationValidate input output descriptor =
        ⟨ErrorCode.RUNTIME_ERROR,
         "Neon: Logistic Activations unsupported with QAsymm8 data type."⟩ ∧
      ∀ r : Option String,
        (IsActivationSupportedNeon true aclActivationValidate input output
          descriptor r).1 = false := by
  intro v input output d h1 h2
  have hv : NeonActivationWorkloadValidate v input output d =
      ⟨ErrorCode.RUNTIME_ERROR,
       "Neon: Logistic Activations unsupported with QAsymm8 data type."⟩ := by
    simp [NeonActivationWorkloadValidate, TensorInfo.GetDataType, h1, h2]
  refine ⟨hv, fun r => ?_⟩
  simp [IsActivationSupportedNeon, forwardWorkloadValidate, hv,
    IsWorkloadSupported]

/-- Claim C10 witness: the Sigmoid descriptor (converting to LOGISTIC) on a
QAsymm8 tensor is rejected under an always-accepting native validate. -/
theorem C10_logistic_qasymm8_witness :
    (IsActivationSupportedNeon true (fun _ _ _ => ⟨ErrorCode.OK, ""⟩)
      ⟨DataType.QuantisedAsymm8, [2, 2]⟩ ⟨DataType.QuantisedAsymm8, [2, 2]⟩
      ⟨ActivationFunction.Sigmoid⟩ none).1 = false :=
  (C10_logistic_qasymm8 (fun _ _ _ => ⟨ErrorCode.OK, ""⟩)
    ⟨DataType.QuantisedAsymm8, [2, 2]⟩ ⟨DataType.QuantisedAsymm8, [2, 2]⟩
    ⟨ActivationFunction.Sigmoid⟩ rfl rfl).2 none

/-- Claim C1 counterexample: the float16-to-float32 conversion predicate
never consults the availability flag (its source body is an unconditional
`return true`), so even in the unavailable build it accepts and leaves the
reason slot untouched, refuting that every predicate rejects with the fixed
backend-not-available diagnostic. -/
theorem C1_convert_accepts_counterexample :
    IsConvertFp16ToFp32SupportedNeon ⟨DataType.Float16, [1]⟩
      ⟨DataType.Float32, [1]⟩ (some "") = (true, some "") := rfl

/-- Claim C1 (amended): with the backend unavailable, every Oracle predicate
except the two type-conversion predicates rejects; all rejecting predicates
populate the reason slot with exactly the fixed backend-not-available
diagnostic, except the categorical rejections (resize-bilinear,
fake-quantization, LSTM) and the fully-connected predicate on 8-bit quantized
input, which leave the slot untouched; the conversion predicates accept. -/
theorem C1_availability_gate_amended :
    (∀ (v : AclTensorInfo → AclTensorInfo → ActivationLayerInfo → Status)
       (i o : TensorInfo) (d : ActivationDescriptor) (r : String),
      IsActivationSupportedNeon false v i o d (some r) =
        (false, some backendNotAvailableDiagnostic)) ∧
    (∀ v (i0 i1 o : TensorInfo) (r : String),
      IsAdditionSupportedNeon false v i0 i1 o (some r) =
        (false, some backendNotAvailableDiagnostic)) ∧
    (∀ v (i o m tv b g : TensorInfo) (d : BatchNormalizationDescriptor)
       (r : String),
      IsBatchNormalizationSupportedNeon false v i o m tv b g d (some r) =
        (false, some backendNotAvailableDiagnostic)) ∧
    (∀ (o : TensorInfo) (r : String),
      IsConstantSupportedNeon false o (some r) =
        (false, some backendNotAvailableDiagnostic)) ∧
    (∀ v (i o : TensorInfo) (d : Convolution2dDescriptor) (w b : TensorInfo)
       (r : String),
      IsConvolution2dSupportedNeon false v i o d w b (some r) =
        (false, some backendNotAvailableDiagnostic)) ∧
    (∀ v (i o : TensorInfo) (d : DepthwiseConvolution2dDescriptor)
       (w b : TensorInfo) (r : String),
      IsDepthwiseConvolutionSupportedNeon false v i o d w b (some r) =
        (false, some backendNotAvailableDiagnostic)) ∧
    (∀ v (i o w b : TensorInfo) (d : FullyConnectedDescriptor) (r : String),
      IsFullyConnectedSupportedNeon false v i o w b d (some r) =
        (false, if i.dataType = DataType.QuantisedAsymm8 then some r
                else some backendNotAvailableDiagnostic)) ∧
    (∀ (i : TensorInfo) (r : String),
      IsInputSupportedNeon false i (some r) =
        (false, some backendNotAvailableDiagnostic)) ∧
    (∀ v (i o : TensorInfo) (r : String),
      IsL2NormalizationSupportedNeon false v i o (some r) =
        (false, some backendNotAvailableDiagnostic)) ∧
    (∀ (inputs : List TensorInfo) (d : OriginsDescriptor) (r : String),
      IsMergerSupportedNeon false inputs d (some r) =
        (false, some backendNotAvailableDiagnostic)) ∧
    (∀ v (i0 i1 o : TensorInfo) (r : String),
      IsMultiplicationSupportedNeon false v i0 i1 o (some r) =
        (false, some backendNotAvailableDiagnostic)) ∧
    (∀ v (i o : TensorInfo) (d : NormalizationDescriptor) (r : String),
      IsNormalizationSupportedNeon false v i o d (some r) =
        (false, some backendNotAvailableDiagnostic)) ∧
    (∀ (o : TensorInfo) (r : String),
      IsOutputSupportedNeon false o (some r) =
        (false, some backendNotAvailableDiagnostic)) ∧
    (∀ v (i o : TensorInfo) (d : PermuteDescriptor) (r : String),
      IsPermuteSupportedNeon false v i o d (some r) =
        (false, some backendNotAvailableDiagnostic)) ∧
    (∀ v (i o : TensorInfo) (d : Pooling2dDescriptor) (r : String),
      IsPooling2dSupportedNeon false v i o d (some r) =
        (false, some backendNotAvailableDiagnostic)) ∧
    (∀ (i : TensorInfo) (r : Option String),
      IsResizeBilinearSupportedNeon i r = (false, r)) ∧
    (∀ v (i o : TensorInfo) (d : SoftmaxDescriptor) (r : String),
      IsSoftmaxSupportedNeon false v i o d (some r) =
        (false, some backendNotAvailableDiagnostic)) ∧
    (∀ (i : TensorInfo) (d : ViewsDescriptor) (r : String),
      IsSplitterSupportedNeon false i d (some r) =
        (false, some backendNotAvailableDiagnostic)) ∧
    (∀ (i : TensorInfo) (d : FakeQuantizationDescriptor) (r : Option String),
      IsFakeQuantizationSupportedNeon i d r = (false, r)) ∧
    (∀ (i : TensorInfo) (r : String),
      IsReshapeSupportedNeon false i (some r) =
        (false, some backendNotAvailableDiagnostic)) ∧
    (∀ (i o : TensorInfo) (r : String),
      IsFloorSupportedNeon false i o (some r) =
        (false, some backendNotAvailableDiagnostic)) ∧
    (∀ (t1 t2 t3 t4 t5 t6 t7 : TensorInfo) (d : LstmDescriptor)
       (w1 w2 w3 w4 w5 w6 w7 w8 w9 : TensorInfo)
       (o1 o2 o3 o4 o5 o6 o7 o8 : Option TensorInfo) (r : Option String),
      IsLstmSupportedNeon t1 t2 t3 t4 t5 t6 t7 d w1 w2 w3 w4 w5 w6 w7 w8 w9
        o1 o2 o3 o4 o5 o6 o7 o8 r = (false, r)) ∧
    (∀ (i o : TensorInfo) (r : Option String),
      IsConvertFp16ToFp32SupportedNeon i o r = (true, r)) ∧
    (∀ (i o : TensorInfo) (r : Option String),
      IsConvertFp32ToFp16SupportedNeon i o r = (true, r)) := by
  refine ⟨fun _ _ _ _ _ => rfl, fun _ _ _ _ _ => rfl,
    fun _ _ _ _ _ _ _ _ _ => rfl, fun _ _ => rfl,
    fun _ _ _ _ _ _ _ => rfl, fun _ _ _ _ _ _ _ => rfl, ?_,
    fun _ _ => rfl, fun _ _ _ _ => rfl, fun _ _ _ => rfl,
    fun _ _ _ _ _ => rfl, fun _ _ _ _ _ => rfl, fun _ _ => rfl,
    fun _ _ _ _ _ => rfl, fun _ _ _ _ _ => rfl, fun _ _ => rfl,
    fun _ _ _ _ _ => rfl, fun _ _ _ => rfl, fun _ _ _ => rfl,
    fun _ _ => rfl, fun _ _ _ => rfl,
    fun _ _ _ _ _ _ _ _ _ _ _ _ _ _ _ _ _ _ _ _ _ _ _ _ _ _ => rfl,
    fun _ _ _ => rfl, fun _ _ _ => rfl⟩
  intro v i o w b d r
  by_cases h : i.dataType = DataType.QuantisedAsymm8 <;>
    simp [IsFullyConnectedSupportedNeon, TensorInfo.GetDataType, h,
      forwardWorkloadValidate, IsNeonBackendSupported, writeReason]

/-- Claim C8: for every Oracle predicate (and for the parameter predicate and
the status translation the claim cites), acceptance leaves the reason slot
untouched, and a null slot stays null on every path (the diagnostic is
silently dropped). -/
theorem C8_reason_frame :
    (∀ ne (v : AclTensorInfo → AclTensorInfo → ActivationLayerInfo → Status)
       (i o : TensorInfo) (d : ActivationDescriptor) (r : Option String),
      ((IsActivationSupportedNeon ne v i o d r).1 = true →
        (IsActivationSupportedNeon ne v i o d r).2 = r) ∧
      (IsActivationSupportedNeon ne v i o d none).2 = none) ∧
    (∀ ne v (i0 i1 o : TensorInfo) (r : Option String),
      ((IsAdditionSupportedNeon ne v i0 i1 o r).1 = true →
        (IsAdditionSupportedNeon ne v i0 i1 o r).2 = r) ∧
      (IsAdditionSupportedNeon ne v i0 i1 o none).2 = none) ∧
    (∀ ne v (i o m tv b g : TensorInfo) (d : BatchNormalizationDescriptor)
       (r : Option String),
      ((IsBatchNormalizationSupportedNeon ne v i o m tv b g d r).1 = true →
        (IsBatchNormalizationSupportedNeon ne v i o m tv b g d r).2 = r) ∧
      (IsBatchNormalizationSupportedNeon ne v i o m tv b g d none).2 = none) ∧
    (∀ ne (o : TensorInfo) (r : Option String),
      ((IsConstantSupportedNeon ne o r).1 = true →
        (IsConstantSupportedNeon ne o r).2 = r) ∧
      (IsConstantSupportedNeon ne o none).2 = none) ∧
    (∀ ne v (i o : TensorInfo) (d : Convolution2dDescriptor)
       (w b : TensorInfo) (r : Option String),
      ((IsConvolution2dSupportedNeon ne v i o d w b r).1 = true →
        (IsConvolution2dSupportedNeon ne v i o d w b r).2 = r) ∧
      (IsConvolution2dSupportedNeon ne v i o d w b none).2 = none) ∧
    (∀ ne v (i o : TensorInfo) (d : DepthwiseConvolution2dDescriptor)
       (w b : TensorInfo) (r : Option String),
      ((IsDepthwiseConvolutionSupportedNeon ne v i o d w b r).1 = true →
        (IsDepthwiseConvolutionSupportedNeon ne v i o d w b r).2 = r) ∧
      (IsDepthwiseConvolutionSupportedNeon ne v i o d w b none).2 = none) ∧
    (∀ ne v (i o w b : TensorInfo) (d : FullyConnectedDescriptor)
       (r : Option String),
      ((IsFullyConnectedSupportedNeon ne v i o w b d r).1 = true →
        (IsFullyConnectedSupportedNeon ne v i o w b d r).2 = r) ∧
      (IsFullyConnectedSupportedNeon ne v i o w b d none).2 = none) ∧
    (∀ ne (i : TensorInfo) (r : Option String),
      ((IsInputSupportedNeon ne i r).1 = true →
        (IsInputSupportedNeon ne i r).2 = r) ∧
      (IsInputSupportedNeon ne i none).2 = none) ∧
    (∀ ne v (i o : TensorInfo) (r : Option String),
      ((IsL2NormalizationSupportedNeon ne v i o r).1 = true →
        (IsL2NormalizationSupportedNeon ne v i o r).2 = r) ∧
      (IsL2NormalizationSupportedNeon ne v i o none).2 = none) ∧
    (∀ ne (inputs : List TensorInfo) (d : OriginsDescriptor)
       (r : Option String),
      ((IsMergerSupportedNeon ne inputs d r).1 = true →
        (IsMergerSupportedNeon ne inputs d r).2 = r) ∧
      (IsMergerSupportedNeon ne inputs d none).2 = none) ∧
    (∀ ne v (i0 i1 o : TensorInfo) (r : Option String),
      ((IsMultiplicationSupportedNeon ne v i0 i1 o r).1 = true →
        (IsMultiplicationSupportedNeon ne v i0 i1 o r).2 = r) ∧
      (IsMultiplicationSupportedNeon ne v i0 i1 o none).2 = none) ∧
    (∀ ne v (i o : TensorInfo) (d : NormalizationDescriptor)
       (r : Option String),
      ((IsNormalizationSupportedNeon ne v i o d r).1 = true →
        (IsNormalizationSupportedNeon ne v i o d r).2 = r) ∧
      (IsNormalizationSupportedNeon ne v i o d none).2 = none) ∧
    (∀ ne (o : TensorInfo) (r : Option String),
      ((IsOutputSupportedNeon ne o r).1 = true →
        (IsOutputSupportedNeon ne o r).2 = r) ∧
      (IsOutputSupportedNeon ne o none).2 = none) ∧
    (∀ ne v (i o : TensorInfo) (d : PermuteDescriptor) (r : Option String),
      ((IsPermuteSupportedNeon ne v i o d r).1 = true →
        (IsPermuteSupportedNeon ne v i o d r).2 = r) ∧
      (IsPermuteSupportedNeon ne v i o d none).2 = none) ∧
    (∀ ne v (i o : TensorInfo) (d : Pooling2dDescriptor) (r : Option String),
      ((IsPooling2dSupportedNeon ne v i o d r).1 = true →
        (IsPooling2dSupportedNeon ne v i o d r).2 = r) ∧
      (IsPooling2dSupportedNeon ne v i o d none).2 = none) ∧
    (∀ (i : TensorInfo) (r : Option String),
      ((IsResizeBilinearSupportedNeon i r).1 = true →
        (IsResizeBilinearSupportedNeon i r).2 = r) ∧
      (IsResizeBilinearSupportedNeon i none).2 = none) ∧
    (∀ ne v (i o : TensorInfo) (d : SoftmaxDescriptor) (r : Option String),
      ((IsSoftmaxSupportedNeon ne v i o d r).1 = true →
        (IsSoftmaxSupportedNeon ne v i o d r).2 = r) ∧
      (IsSoftmaxSupportedNeon ne v i o d none).2 = none) ∧
    (∀ ne (i : TensorInfo) (d : ViewsDescriptor) (r : Option String),
      ((IsSplitterSupportedNeon ne i d r).1 = true →
        (IsSplitterSupportedNeon ne i d r).2 = r) ∧
      (IsSplitterSupportedNeon ne i d none).2 = none) ∧
    (∀ (i : TensorInfo) (d : FakeQuantizationDescriptor) (r : Option String),
      ((IsFakeQuantizationSupportedNeon i d r).1 = true →
        (IsFakeQuantizationSupportedNeon i d r).2 = r) ∧
      (IsFakeQuantizationSupportedNeon i d none).2 = none) ∧
    (∀ ne (i : TensorInfo) (r : Option String),
      ((IsReshapeSupportedNeon ne i r).1 = true →
        (IsReshapeSupportedNeon ne i r).2 = r) ∧
      (IsReshapeSupportedNeon ne i none).2 = none) ∧
    (∀ ne (i o : TensorInfo) (r : Option String),
      ((IsFloorSupportedNeon ne i o r).1 = true →
        (IsFloorSupportedNeon ne i o r).2 = r) ∧
      (IsFloorSupportedNeon ne i o none).2 = none) ∧
    (∀ (t1 t2 t3 t4 t5 t6 t7 : TensorInfo) (d : LstmDescriptor)
       (w1 w2 w3 w4 w5 w6 w7 w8 w9 : TensorInfo)
       (o1 o2 o3 o4 o5 o6 o7 o8 : Option TensorInfo) (r : Option String),
      ((IsLstmSupportedNeon t1 t2 t3 t4 t5 t6 t7 d w1 w2 w3 w4 w5 w6 w7 w8 w9
          o1 o2 o3 o4 o5 o6 o7 o8 r).1 = true →
        (IsLstmSupportedNeon t1 t2 t3 t4 t5 t6 t7 d w1 w2 w3 w4 w5 w6 w7 w8 w9
          o1 o2 o3 o4 o5 o6 o7 o8 r).2 = r) ∧
      (IsLstmSupportedNeon t1 t2 t3 t4 t5 t6 t7 d w1 w2 w3 w4 w5 w6 w7 w8 w9
        o1 o2 o3 o4 o5 o6 o7 o8 none).2 = none) ∧
    (∀ (i o : TensorInfo) (r : Option String),
      ((IsConvertFp16ToFp32SupportedNeon i o r).1 = true →
        (IsConvertFp16ToFp32SupportedNeon i o r).2 = r) ∧
      (IsConvertFp16ToFp32SupportedNeon i o none).2 = none) ∧
    (∀ (i o : TensorInfo) (r : Option String),
      ((IsConvertFp32ToFp16SupportedNeon i o r).1 = true →
        (IsConvertFp32ToFp16SupportedNeon i o r).2 = r) ∧
      (IsConvertFp32ToFp16SupportedNeon i o none).2 = none) ∧
    (∀ (r : Option String) (p : NormalizationDescriptor),
      ((IsNeonNormalizationDescParamsSupported r p).1 = true →
        (IsNeonNormalizationDescParamsSupported r p).2 = r) ∧
      (IsNeonNormalizationDescParamsSupported none p).2 = none) ∧
    (∀ (st : Status) (r : Option String),
      ((IsWorkloadSupported st r).1 = true →
        (IsWorkloadSupported st r).2 = r) ∧
      (IsWorkloadSupported st none).2 = none) := by
  refine ⟨?_, ?_, ?_, ?_, ?_, ?_, ?_, ?_, ?_, ?_, ?_, ?_, ?_, ?_, ?_,
    fun _ _ => ⟨fun _ => rfl, rfl⟩, ?_, ?_,
    fun _ _ _ => ⟨fun _ => rfl, rfl⟩, ?_, ?_,
    fun _ _ _ _ _ _ _ _ _ _ _ _ _ _ _ _ _ _ _ _ _ _ _ _ _ _ =>
      ⟨fun _ => rfl, rfl⟩,
    fun _ _ _ => ⟨fun _ => rfl, rfl⟩, fun _ _ _ => ⟨fun _ => rfl, rfl⟩,
    ?_, fun st r => IsWorkloadSupported_frame st r⟩
  · exact fun ne v i o d r =>
      ⟨(forwardWorkloadValidate_frame ne _).1 r,
       (forwardWorkloadValidate_frame ne _).2⟩
  · exact fun ne v i0 i1 o r =>
      ⟨(forwardWorkloadValidate_frame ne _).1 r,
       (forwardWorkloadValidate_frame ne _).2⟩
  · exact fun ne v i o m tv b g d r =>
      ⟨(forwardWorkloadValidate_frame ne _).1 r,
       (forwardWorkloadValidate_frame ne _).2⟩
  · exact fun ne o r =>
      ⟨(IsSupportedForDataTypeNeon_frame ne o.GetDataType).1 r,
       (IsSupportedForDataTypeNeon_frame ne o.GetDataType).2⟩
  · exact fun ne v i o d w b r =>
      ⟨(forwardWorkloadValidate_frame ne _).1 r,
       (forwardWorkloadValidate_frame ne _).2⟩
  · exact fun ne v i o d w b r =>
      ⟨(forwardWorkloadValidate_frame ne _).1 r,
       (forwardWorkloadValidate_frame ne _).2⟩
  · intro ne v i o w b d r
    by_cases h : i.GetDataType = DataType.QuantisedAsymm8
    · constructor
      · intro hacc
        simp [IsFullyConnectedSupportedNeon, h] at hacc
      · simp [IsFullyConnectedSupportedNeon, h]
    · constructor
      · intro hacc
        simp only [IsFullyConnectedSupportedNeon, h, if_false] at hacc ⊢
        exact (forwardWorkloadValidate_frame ne _).1 r hacc
      · simp only [IsFullyConnectedSupportedNeon, h, if_false]
        exact (forwardWorkloadValidate_frame ne _).2
  · exact fun ne i r =>
      ⟨(IsSupportedForDataTypeNeon_frame ne i.GetDataType).1 r,
       (IsSupportedForDataTypeNeon_frame ne i.GetDataType).2⟩
  · exact fun ne v i o r =>
      ⟨(forwardWorkloadValidate_frame ne _).1 r,
       (forwardWorkloadValidate_frame ne _).2⟩
  · exact fun ne inputs d r =>
      ⟨(IsSupportedForDataTypeNeon_frame ne _).1 r,
       (IsSupportedForDataTypeNeon_frame ne _).2⟩
  · exact fun ne v i0 i1 o r =>
      ⟨(forwardWorkloadValidate_frame ne _).1 r,
       (forwardWorkloadValidate_frame ne _).2⟩
  · exact fun ne v i o d r =>
      ⟨(forwardWorkloadValidate_frame ne _).1 r,
       (forwardWorkloadValidate_frame ne _).2⟩
  · exact fun ne o r =>
      ⟨(IsSupportedForDataTypeNeon_frame ne o.GetDataType).1 r,
       (IsSupportedForDataTypeNeon_frame ne o.GetDataType).2⟩
  · exact fun ne v i o d r =>
      ⟨(forwardWorkloadValidate_frame ne _).1 r,
       (forwardWorkloadValidate_frame ne _).2⟩
  · exact fun ne v i o d r =>
      ⟨(forwardWorkloadValidate_frame ne _).1 r,
       (forwardWorkloadValidate_frame ne _).2⟩
  · exact fun ne v i o d r =>
      ⟨(forwardWorkloadValidate_frame ne _).1 r,
       (forwardWorkloadValidate_frame ne _).2⟩
  · exact fun ne i d r =>
      ⟨(IsSupportedForDataTypeNeon_frame ne i.GetDataType).1 r,
       (IsSupportedForDataTypeNeon_frame ne i.GetDataType).2⟩
  · exact fun ne i r =>
      ⟨(IsSupportedForDataTypeNeon_frame ne i.GetDataType).1 r,
       (IsSupportedForDataTypeNeon_frame ne i.GetDataType).2⟩
  · intro ne i o r
    cases ne <;> cases h : i.dataType <;>
      constructor <;>
        simp_all [IsFloorSupportedNeon, IsNeonBackendSupported,
          IsSupportedForDataTypeGeneric, TensorInfo.GetDataType,
          TrueFunc, FalseFuncF16, FalseFuncU8, writeReason]
  · intro r p
    by_cases hm : p.m_NormMethodType = NormalizationAlgorithmMethod.LocalBrightness <;>
      by_cases hs : p.m_NormSize % 2 = 0 <;>
        constructor <;>
          simp_all [IsNeonNormalizationDescParamsSupported, writeReason]

/-- Claim C8 witness: an accepted activation query leaves the caller's reason
string untouched. -/
theorem C8_reason_frame_witness :
    (IsActivationSupportedNeon true (fun _ _ _ => ⟨ErrorCode.OK, ""⟩)
      ⟨DataType.Float32, [1]⟩ ⟨DataType.Float32, [1]⟩
      ⟨ActivationFunction.ReLu⟩ (some "abc")).2 = some "abc" :=
  (C8_reason_frame.1 true (fun _ _ _ => ⟨ErrorCode.OK, ""⟩)
    ⟨DataType.Float32, [1]⟩ ⟨DataType.Float32, [1]⟩
    ⟨ActivationFunction.ReLu⟩ (some "abc")).1 rfl

/-- Claim C6 counterexample: the Oracle's validate and the constructor's
configure are not the same checks.  Under a native validate that accepts
everything, the QAsymm8 + Sigmoid (LOGISTIC) configuration is rejected by the
activation Oracle, yet constructing the workload from the identical handles
succeeds, because the extra QAsymm8-LOGISTIC guard lives only in the Oracle's
validate, not in the configure path. -/
theorem C6_checks_differ_counterexample :
    (IsActivationSupportedNeon true (fun _ _ _ => ⟨ErrorCode.OK, ""⟩)
      ⟨DataType.QuantisedAsymm8, [1]⟩ ⟨DataType.QuantisedAsymm8, [1]⟩
      ⟨ActivationFunction.Sigmoid⟩ (some "")).1 = false ∧
    NeonActivationFloat32Workload.construct (fun _ _ _ => ⟨ErrorCode.OK, ""⟩)
      ⟨[⟨⟨DataType.QuantisedAsymm8, [1]⟩⟩], [⟨⟨DataType.QuantisedAsymm8, [1]⟩⟩],
       ⟨ActivationFunction.Sigmoid⟩⟩ =
      Except.ok ⟨⟨⟨DataType.QuantisedAsymm8, [1]⟩⟩,
        ⟨⟨DataType.QuantisedAsymm8, [1]⟩⟩,
        ⟨AclActivationFunction.LOGISTIC⟩⟩ := by
  constructor <;> rfl

/-- Claim C6 (amended): every configuration the activation Oracle accepts
(backend available, any native validate) yields a successful workload
construction from the identical tensors — one input handle and one output
handle — without the internal-consistency-fault path; the Oracle's checks
subsume the configure-time check rather than coinciding with it. -/
theorem C6_oracle_implies_construction :
    ∀ (aclActivationValidate :
        AclTensorInfo → AclTensorInfo → ActivationLayerInfo → Status)
      (input output : TensorInfo) (descriptor : ActivationDescriptor)
      (r : Option String),
      (IsActivationSupportedNeon true aclActivationValidate input output
        descriptor r).1 = true →
      NeonActivationFloat32Workload.construct aclActivationValidate
        ⟨[⟨input⟩], [⟨output⟩], descriptor⟩ =
        Except.ok ⟨⟨input⟩, ⟨output⟩,
          ConvertActivationDescriptorToAclActivationLayerInfo descriptor⟩ := by
  intro v input output d r h
  have hOK : (NeonActivationWorkloadValidate v input output d).error_code =
      ErrorCode.OK := by
    by_contra hne
    simp [IsActivationSupportedNeon, forwardWorkloadValidate,
      IsWorkloadSupported, hne] at h
  have hcfg : (v (BuildArmComputeTensorInfo input)
      (BuildArmComputeTensorInfo output)
      (ConvertActivationDescriptorToAclActivationLayerInfo d)).error_code =
      ErrorCode.OK := by
    by_cases hc : input.GetDataType = DataType.QuantisedAsymm8 ∧
        (ConvertActivationDescriptorToAclActivationLayerInfo d).activation =
          AclActivationFunction.LOGISTIC
    · rw [NeonActivationWorkloadValidate] at hOK
      simp [hc] at hOK
    · rw [NeonActivationWorkloadValidate] at hOK
      simpa [hc] using hOK
  simp [NeonActivationFloat32Workload.construct, hcfg]

/-- Claim C6 witness: a float32 ReLu configuration accepted under an
always-accepting native validate constructs successfully. -/
theorem C6_oracle_implies_construction_witness :
    NeonActivationFloat32Workload.construct (fun _ _ _ => ⟨ErrorCode.OK, ""⟩)
      ⟨[⟨⟨DataType.Float32, [1]⟩⟩], [⟨⟨DataType.Float32, [1]⟩⟩],
       ⟨ActivationFunction.ReLu⟩⟩ =
      Except.ok ⟨⟨⟨DataType.Float32, [1]⟩⟩, ⟨⟨DataType.Float32, [1]⟩⟩,
        ⟨AclActivationFunction.RELU⟩⟩ :=
  C6_oracle_implies_construction (fun _ _ _ => ⟨ErrorCode.OK, ""⟩)
    ⟨DataType.Float32, [1]⟩ ⟨DataType.Float32, [1]⟩
    ⟨ActivationFunction.ReLu⟩ none rfl

end armnn
